import Mathlib

/-!
Verification development for the TropoScan detection-and-classification
pipeline.  The definitions below shallowly embed the pipeline pieces found
in the repository: the backend risk tier function `classify_risk` and the
image preprocessing `preprocess_image` from the backend documentation code,
the frontend event-labelling function `getEventType` (including its
JavaScript `parseInt` semantics), and the alert-gating logic of the
notification service and detection interface.  Components whose
implementation is not present in the repository snapshot (the fallback
segmentation provider, the metrics extractor's coverage computation, and
the overlay renderer) are modelled from the specification and marked as
such.  Pixel intensities and derived metrics are rationals; images are
pixel lists (for the classifier, which only consumes the flattened pixel
multiset) or index functions (for resizing).
-/

namespace TropoScan

/-! ## Risk tier classification (backend `classify_risk`) -/

/-- `np.sum(mask > 0.8)` from `classify_risk`: the number of mask pixels
strictly above the 0.8 activation level. -/
def high_risk_pixels (mask : List ℚ) : Nat :=
  (mask.filter (fun p => 4/5 < p)).length

/-- `avg_brightness = np.mean(original_image) * 255` from `classify_risk`. -/
def avg_brightness (original : List ℚ) : ℚ :=
  original.sum / (original.length : ℚ) * 255

/-- `temperature = -20 - (avg_brightness - 128) * 0.5` from `classify_risk`. -/
def temperatureEstimate (original : List ℚ) : ℚ :=
  -20 - (avg_brightness original - 128) * (1/2)

/-- The backend risk tier function `classify_risk(mask, original_image)`:
"high" when the fraction of mask pixels above 0.8 exceeds 0.02 or the
temperature estimate is below -70; else "moderate" when the temperature
estimate is below -60; else "low".  Cluster area is not an input. -/
def classify_risk (mask original : List ℚ) : String :=
  if (high_risk_pixels mask : ℚ) / (mask.length : ℚ) > 1/50 ∨
      temperatureEstimate original < -70 then "high"
  else if temperatureEstimate original < -60 then "moderate"
  else "low"

/-! ## Frontend event labelling (`getEventType` with JavaScript `parseInt`) -/

/-- The longest leading run of decimal digits of a character list read as a
natural number; `none` when the list does not start with a digit. -/
def parseDigits : List Char → Option Nat
  | [] => none
  | c :: cs =>
    if c.isDigit then
      some ((c :: cs).takeWhile Char.isDigit |>.foldl
        (fun acc d => 10 * acc + (d.toNat - 48)) 0)
    else none

/-- JavaScript `parseInt` in base 10: skip leading spaces, read an optional
sign and then the longest leading run of decimal digits, ignoring the rest
of the string; `none` models `NaN` (no digits at all).  In particular the
fractional part of a decimal rendering is discarded: truncation toward
zero. -/
def parseIntJS (s : String) : Option Int :=
  match s.toList.dropWhile (fun c => c = ' ') with
  | '-' :: rest => (parseDigits rest).map (fun n => -(n : Int))
  | '+' :: rest => (parseDigits rest).map (fun n => (n : Int))
  | rest => (parseDigits rest).map (fun n => (n : Int))

/-- The frontend `getEventType(temp)`: parses the displayed temperature
string with `parseInt` and picks the event label from the parsed integer
alone; cluster area does not occur in the function.  When `parseInt`
yields `NaN`, every `<` comparison is false in JavaScript and the final
branch is taken. -/
def getEventType (temp : String) : String :=
  match parseIntJS temp with
  | some v =>
    if v < -70 then "Cyclonic Cluster detected"
    else if v < -65 then "Severe Thunderstorm detected"
    else if v < -60 then "Local Rainstorm detected"
    else "Low-Risk Cloud Cluster detected"
  | none => "Low-Risk Cloud Cluster detected"

/-- The spec's event table collapsed to its temperature conditions, applied
to an exact rational temperature: the label the bands would give the
real-valued temperature if no integer truncation happened. -/
def eventOfTemp (v : ℚ) : String :=
  if v < -70 then "Cyclonic Cluster detected"
  else if v < -65 then "Severe Thunderstorm detected"
  else if v < -60 then "Local Rainstorm detected"
  else "Low-Risk Cloud Cluster detected"

/-- The displayed temperature string `-70.<d>°C` for a digit `d`, whose
numeric value lies strictly between -71 and -70 when `1 ≤ d ≤ 9`. -/
def tempDisplay (d : Nat) : String :=
  "-70." ++ String.singleton (Char.ofNat (48 + d)) ++ "°C"

/-! ## Masked-region mean (claim-side notion for the monotonicity property) -/

/-- The indices the mask marks as active: mask value above the 0.5
activation threshold. -/
def maskedRegion {n : Nat} (m : Fin n → ℚ) : Finset (Fin n) :=
  Finset.univ.filter (fun i => 1/2 < m i)

/-- The mean frame intensity inside the masked region (0 when the region is
empty, by rational convention x / 0 = 0). -/
def maskedMeanIntensity {n : Nat} (frame m : Fin n → ℚ) : ℚ :=
  (∑ i in maskedRegion m, frame i) / ((maskedRegion m).card : ℚ)

/-! ## Image preprocessing (backend `preprocess_image`) -/

/-- Clamping of an interpolation index into `[0, n-1]`, the edge handling of
`cv2.resize`. -/
def clampIdx (n : Nat) (i : Int) : Nat :=
  (min (max i 0) ((n : Int) - 1)).toNat

/-- The source coordinate sampled for destination index `i` when resizing a
source axis of size `srcSz` to 256 pixels (the pixel-center convention of
`cv2.resize`). -/
def srcCoord (srcSz i : Nat) : ℚ :=
  ((i : ℚ) + 1/2) * (srcSz : ℚ) / 256 - 1/2

/-- One-dimensional linear interpolation with edge clamping at coordinate
`c` into the samples `f 0, …, f (n-1)`. -/
def lerp1 (n : Nat) (f : Nat → ℚ) (c : ℚ) : ℚ :=
  (1 - Int.fract c) * f (clampIdx n ⌊c⌋) + Int.fract c * f (clampIdx n (⌊c⌋ + 1))

/-- `cv2.resize(img, (256, 256))` with its default bilinear interpolation,
written separably: interpolate along the row, then along the column. -/
def resizeBilinear (h w : Nat) (img : Nat → Nat → ℚ) (i j : Nat) : ℚ :=
  lerp1 h (fun y => lerp1 w (img y) (srcCoord w j)) (srcCoord h i)

/-- The backend `preprocess_image`: the decoded, grayscale-converted image
(a matrix of 8-bit intensities, represented by the `img` function together
with a 0..255 bound hypothesis at use sites) is resized to 256×256 and each
value divided by 255. -/
def preprocess_image (h w : Nat) (img : Nat → Nat → ℚ) : List (List ℚ) :=
  (List.range 256).map fun i =>
    (List.range 256).map fun j => resizeBilinear h w img i j / 255

/-! ## Fallback segmentation and coverage (modelled from the spec) -/

/-- Modelled from the spec: the Fallback variant of the
SegmentationProvider, whose backend implementation (the mock model) is not
in the repository snapshot — per pixel, the mask is 1 when the frame pixel
exceeds the brightness threshold and 0 otherwise. -/
def fallbackSegment (threshold : ℚ) (frame : List ℚ) : List ℚ :=
  frame.map fun p => if threshold < p then 1 else 0

/-- Modelled from the spec: the MetricsExtractor coveragePercent, whose
backend implementation is not in the repository snapshot — the count of
mask pixels above the 0.5 activation threshold over the total pixel count,
times 100. -/
def coveragePercent (mask : List ℚ) : ℚ :=
  ((mask.filter (fun p => 1/2 < p)).length : ℚ) / (mask.length : ℚ) * 100

/-! ## Overlay rendering (modelled from the spec) -/

/-- Modelled from the spec: the OverlayRenderer blending coefficient per
mask activation, whose backend implementation is not in the repository
snapshot — transparent (alpha 0) at zero activation, partial alpha (< 1)
at every level below the peak. -/
def overlayAlpha (m : ℚ) : ℚ :=
  if m ≤ 0 then 0 else if m < 1/2 then 2/5 else if m < 1 then 3/5 else 4/5

/-- Modelled from the spec: the OverlayRenderer color ramp, green for low
activation, yellow for medium, red for high. -/
def overlayColor (m : ℚ) : ℚ × ℚ × ℚ :=
  if m < 1/2 then (0, 1, 0) else if m < 4/5 then (1, 1, 0) else (1, 0, 0)

/-- Modelled from the spec: the OverlayRenderer — each output pixel is the
alpha blend of the ramp color over the original (grayscale) frame pixel,
channel by channel. -/
def renderOverlay (frame mask : List ℚ) : List (ℚ × ℚ × ℚ) :=
  List.zipWith (fun p m =>
    ((1 - overlayAlpha m) * p + overlayAlpha m * (overlayColor m).1,
     (1 - overlayAlpha m) * p + overlayAlpha m * (overlayColor m).2.1,
     (1 - overlayAlpha m) * p + overlayAlpha m * (overlayColor m).2.2)) frame mask

/-! ## Alert gating (frontend notification service and detection interface) -/

/-- The persisted notification settings of the frontend
NotificationService. -/
structure AlertSettings where
  highRisk : Bool
  moderateRisk : Bool
  lowRisk : Bool
  backgroundAlerts : Bool
  soundEnabled : Bool
  vibrationEnabled : Bool

/-- The defaults `loadSettings` installs when nothing is saved: every
toggle on. -/
def defaultAlertSettings : AlertSettings :=
  ⟨true, true, true, true, true, true⟩

/-- Whether `sendRiskAlert(riskLevel, details)` issues a notification: it
returns early exactly when the per-tier toggle for the level is off, and
otherwise builds a notification for every tier — including "low". -/
def sendRiskAlert (s : AlertSettings) (level : String) : Bool :=
  if level = "low" then s.lowRisk
  else if level = "moderate" then s.moderateRisk
  else s.highRisk

/-- Whether `sendRiskNotification(riskData)` (run after every successful
detection) issues a notification: it returns early when notifications are
not enabled and otherwise forwards every risk level to `sendRiskAlert`. -/
def sendRiskNotification (enabled : Bool) (s : AlertSettings) (level : String) : Bool :=
  enabled && sendRiskAlert s level

/-- Whether the manual `sendAlert` button action fires: it returns early
when there are no results or the risk level is "low". -/
def sendAlert (hasResults : Bool) (level : String) : Bool :=
  hasResults && !(level == "low")

end TropoScan

namespace TropoScan

/-- C1 counterexample: at cluster area 100 km² and displayed temperature
"-75°C" the code labels the event "Cyclonic Cluster detected" even though
the area is not above 1500 km², so the claimed area-and-temperature
biconditional for the event class is false at this input. -/
theorem c1_event_area_counterexample :
    ¬(getEventType "-75°C" = "Cyclonic Cluster detected" ↔
      (100 : ℚ) > 1500 ∧ (-75 : ℚ) < -70) := by
  intro h
  have h1 : getEventType "-75°C" = "Cyclonic Cluster detected" := by decide
  have h2 := h.mp h1
  norm_num at h2

/-- C1 (amended): the event classification is decided first-match-wins on
the parsed temperature alone: Cyclonic Cluster exactly when the parsed
value is below -70, Severe Thunderstorm exactly on [-70, -65), Local
Rainstorm exactly on [-65, -60), and Low-Risk Cloud Cluster exactly on
[-60, ∞); cluster area is not consulted. -/
theorem c1_getEventType_bands (t : String) (v : Int) (h : parseIntJS t = some v) :
    (getEventType t = "Cyclonic Cluster detected" ↔ v < -70) ∧
    (getEventType t = "Severe Thunderstorm detected" ↔ -70 ≤ v ∧ v < -65) ∧
    (getEventType t = "Local Rainstorm detected" ↔ -65 ≤ v ∧ v < -60) ∧
    (getEventType t = "Low-Risk Cloud Cluster detected" ↔ -60 ≤ v) := by
  unfold getEventType
  rw [h]
  dsimp only
  split_ifs with h1 h2 h3 <;> refine ⟨?_, ?_, ?_, ?_⟩ <;> simp_all <;> omega

/-- C1 witness: the band theorem applied to the parsed string "-75°C". -/
theorem c1_getEventType_bands_witness :
    parseIntJS "-75°C" = some (-75) ∧
    ((getEventType "-75°C" = "Cyclonic Cluster detected" ↔ (-75 : Int) < -70) ∧
     (getEventType "-75°C" = "Severe Thunderstorm detected" ↔
        (-70 : Int) ≤ -75 ∧ (-75 : Int) < -65) ∧
     (getEventType "-75°C" = "Local Rainstorm detected" ↔
        (-65 : Int) ≤ -75 ∧ (-75 : Int) < -60) ∧
     (getEventType "-75°C" = "Low-Risk Cloud Cluster detected" ↔
        (-60 : Int) ≤ -75)) :=
  ⟨by decide, c1_getEventType_bands "-75°C" (-75) (by decide)⟩

/-- C2 counterexample: the mask [1] with frame [1/2] is classified "high"
although its temperature estimate is not below -70, so "High exactly when
temperatureEstimateC < -70 and clusterAreaKm2 > 2000 (both conditions
required)" is false: the code reaches "high" through its coverage clause
with a warm temperature, and never reads a cluster area at all. -/
theorem c2_high_tier_counterexample :
    classify_risk [1] [1/2] = "high" ∧ ¬(temperatureEstimate [1/2] < -70) := by
  constructor
  · rw [classify_risk, if_pos]
    left
    norm_num [high_risk_pixels, List.filter_cons, decide_eq_true_eq]
  · norm_num [temperatureEstimate, avg_brightness]

/-- C2 (amended): the tier is decided first-match-wins on the fraction of
mask pixels above 0.8 and the whole-frame temperature estimate: "high"
exactly when that fraction exceeds 0.02 or the temperature estimate is
below -70; "moderate" exactly when neither holds and the temperature
estimate is below -60; "low" otherwise.  Cluster area is not an input. -/
theorem c2_classify_risk_first_match (mask original : List ℚ) :
    (classify_risk mask original = "high" ↔
      1/50 < (high_risk_pixels mask : ℚ) / (mask.length : ℚ) ∨
        temperatureEstimate original < -70) ∧
    (classify_risk mask original = "moderate" ↔
      ¬(1/50 < (high_risk_pixels mask : ℚ) / (mask.length : ℚ) ∨
          temperatureEstimate original < -70) ∧
        temperatureEstimate original < -60) ∧
    (classify_risk mask original = "low" ↔
      ¬(1/50 < (high_risk_pixels mask : ℚ) / (mask.length : ℚ) ∨
          temperatureEstimate original < -70) ∧
        ¬(temperatureEstimate original < -60)) := by
  unfold classify_risk
  split_ifs with h1 h2 <;> simp_all

/-- C3 counterexample: the frame [228/255] has temperature estimate exactly
-70, yet with mask [1] the code classifies "high" (through the coverage
clause), so "temperature = -70.0 exactly ... must classify as Moderate" is
false as a statement about all inputs at that boundary temperature. -/
theorem c3_boundary_counterexample :
    temperatureEstimate [228/255] = -70 ∧ classify_risk [1] [228/255] = "high" := by
  constructor
  · norm_num [temperatureEstimate, avg_brightness]
  · rw [classify_risk, if_pos]
    left
    norm_num [high_risk_pixels, List.filter_cons, decide_eq_true_eq]

/-- C3 (amended): at temperature estimate exactly -70 the strict `<` of the
temperature clause does not fire, and whenever the coverage clause (the
fraction of mask pixels above 0.8 exceeding 0.02) also fails, the result is
"moderate" — the boundary is strict, but High can still be reached through
coverage, and cluster area plays no part. -/
theorem c3_boundary_moderate (mask original : List ℚ)
    (htemp : temperatureEstimate original = -70)
    (hcov : (high_risk_pixels mask : ℚ) / (mask.length : ℚ) ≤ 1/50) :
    classify_risk mask original = "moderate" := by
  have hnot : ¬((high_risk_pixels mask : ℚ) / (mask.length : ℚ) > 1/50 ∨
      temperatureEstimate original < -70) := by
    push_neg
    exact ⟨hcov, by rw [htemp]⟩
  have hm : temperatureEstimate original < -60 := by rw [htemp]; norm_num
  unfold classify_risk
  rw [if_neg hnot, if_pos hm]

/-- C3 witness: the boundary theorem applied to mask [0] and frame
[228/255]. -/
theorem c3_boundary_moderate_witness :
    temperatureEstimate [228/255] = -70 ∧
    (high_risk_pixels [(0 : ℚ)] : ℚ) / (([(0 : ℚ)] : List ℚ).length : ℚ) ≤ 1/50 ∧
    classify_risk [0] [228/255] = "moderate" := by
  have ht : temperatureEstimate [228/255] = -70 := by
    norm_num [temperatureEstimate, avg_brightness]
  have hc : (high_risk_pixels [(0 : ℚ)] : ℚ) /
      (([(0 : ℚ)] : List ℚ).length : ℚ) ≤ 1/50 := by
    norm_num [high_risk_pixels, List.filter_cons, decide_eq_true_eq]
  exact ⟨ht, hc, c3_boundary_moderate [0] [228/255] ht hc⟩

/-- C10: for every displayed temperature `-70.<d>°C` with digit 1 ≤ d ≤ 9
(numeric value strictly between -71 and -70), `parseInt` truncates to -70,
the strict `< -70` Cyclonic condition fails and the code labels the event
"Severe Thunderstorm detected", one band warmer than the band of the exact
rational temperature -70 - d/10. -/
theorem c10_parseInt_truncation (d : Nat) (h1 : 1 ≤ d) (h2 : d ≤ 9) :
    parseIntJS (tempDisplay d) = some (-70) ∧
    getEventType (tempDisplay d) = "Severe Thunderstorm detected" ∧
    eventOfTemp (-70 - (d : ℚ) / 10) = "Cyclonic Cluster detected" := by
  interval_cases d <;>
    exact ⟨by decide, by decide, by norm_num [eventOfTemp]⟩

/-- C10 witness: the truncation theorem applied to the digit 9, that is the
string "-70.9°C". -/
theorem c10_parseInt_truncation_witness :
    (1 ≤ 9 ∧ 9 ≤ 9) ∧
    (parseIntJS (tempDisplay 9) = some (-70) ∧
     getEventType (tempDisplay 9) = "Severe Thunderstorm detected" ∧
     eventOfTemp (-70 - (9 : ℚ) / 10) = "Cyclonic Cluster detected") :=
  ⟨⟨by decide, by decide⟩, c10_parseInt_truncation 9 (by decide) (by decide)⟩

end TropoScan

namespace TropoScan

/-- Auxiliary: linear interpolation of samples inside [0, 255] stays inside
[0, 255]. -/
theorem lerp1_bounds (n : Nat) (f : Nat → ℚ) (c : ℚ)
    (hf : ∀ k, 0 ≤ f k ∧ f k ≤ 255) :
    0 ≤ lerp1 n f c ∧ lerp1 n f c ≤ 255 := by
  have h0 : 0 ≤ Int.fract c := Int.fract_nonneg c
  have h1 : Int.fract c < 1 := Int.fract_lt_one c
  obtain ⟨ha0, ha1⟩ := hf (clampIdx n ⌊c⌋)
  obtain ⟨hb0, hb1⟩ := hf (clampIdx n (⌊c⌋ + 1))
  unfold lerp1
  constructor
  · have e1 := mul_nonneg (by linarith : (0:ℚ) ≤ 1 - Int.fract c) ha0
    have e2 := mul_nonneg h0 hb0
    linarith
  · nlinarith [mul_nonneg (by linarith : (0:ℚ) ≤ 1 - Int.fract c)
      (by linarith : (0:ℚ) ≤ 255 - f (clampIdx n ⌊c⌋)),
      mul_nonneg h0 (by linarith : (0:ℚ) ≤ 255 - f (clampIdx n (⌊c⌋ + 1)))]

/-- C5: for every valid decoded grayscale image (any positive dimensions,
8-bit intensities), `preprocess_image` returns a 256×256 single-channel
frame whose every value lies in [0, 1], obtained by bilinear resizing and
division by 255. -/
theorem c5_normalize_fixed_dims (h w : Nat) (img : Nat → Nat → ℚ)
    (hh : 0 < h) (hw : 0 < w)
    (hpix : ∀ y x, 0 ≤ img y x ∧ img y x ≤ 255) :
    (preprocess_image h w img).length = 256 ∧
      ∀ row ∈ preprocess_image h w img, row.length = 256 ∧
        ∀ v ∈ row, 0 ≤ v ∧ v ≤ 1 := by
  refine ⟨by simp [preprocess_image], ?_⟩
  intro row hrow
  simp only [preprocess_image, List.mem_map, List.mem_range] at hrow
  obtain ⟨i, hi, rfl⟩ := hrow
  refine ⟨by simp, ?_⟩
  intro v hv
  simp only [List.mem_map, List.mem_range] at hv
  obtain ⟨j, hj, rfl⟩ := hv
  have hrows : ∀ y, 0 ≤ lerp1 w (img y) (srcCoord w j) ∧
      lerp1 w (img y) (srcCoord w j) ≤ 255 :=
    fun y => lerp1_bounds w (img y) (srcCoord w j) (fun k => hpix y k)
  have hb := lerp1_bounds h (fun y => lerp1 w (img y) (srcCoord w j))
    (srcCoord h i) hrows
  unfold resizeBilinear
  constructor
  · exact div_nonneg hb.1 (by norm_num)
  · rw [div_le_one (by norm_num : (0:ℚ) < 255)]
    exact hb.2

/-- C5 witness: the resize theorem applied to the 1×1 image of constant
intensity 128. -/
theorem c5_normalize_fixed_dims_witness :
    (0 < 1 ∧ 0 < 1 ∧
      ∀ y x : Nat, 0 ≤ (fun _ _ : Nat => (128:ℚ)) y x ∧
        (fun _ _ : Nat => (128:ℚ)) y x ≤ 255) ∧
    ((preprocess_image 1 1 (fun _ _ => 128)).length = 256 ∧
      ∀ row ∈ preprocess_image 1 1 (fun _ _ => 128), row.length = 256 ∧
        ∀ v ∈ row, 0 ≤ v ∧ v ≤ 1) :=
  have hp : ∀ y x : Nat, 0 ≤ (fun _ _ : Nat => (128:ℚ)) y x ∧
      (fun _ _ : Nat => (128:ℚ)) y x ≤ 255 :=
    fun _ _ => ⟨by norm_num, by norm_num⟩
  ⟨⟨Nat.one_pos, Nat.one_pos, hp⟩,
    c5_normalize_fixed_dims 1 1 (fun _ _ => 128) Nat.one_pos Nat.one_pos hp⟩

/-- C4: the temperature estimate is monotonically non-increasing in the
mean masked-region intensity — for two frames that agree outside the
masked region, the one whose masked-region mean is at least as high gets a
temperature estimate that is at most as high (never warmer). -/
theorem c4_temperature_monotone {n : Nat} (f g m : Fin n → ℚ)
    (houtside : ∀ i, m i ≤ 1/2 → f i = g i)
    (hmean : maskedMeanIntensity f m ≤ maskedMeanIntensity g m) :
    temperatureEstimate (List.ofFn g) ≤ temperatureEstimate (List.ofFn f) := by
  have hout : ∑ i in (maskedRegion m)ᶜ, f i = ∑ i in (maskedRegion m)ᶜ, g i := by
    refine Finset.sum_congr rfl (fun i hi => houtside i ?_)
    have := Finset.mem_compl.mp hi
    simp only [maskedRegion, Finset.mem_filter, Finset.mem_univ, true_and] at this
    exact le_of_not_lt this
  have hS : ∑ i in maskedRegion m, f i ≤ ∑ i in maskedRegion m, g i := by
    rcases Nat.eq_zero_or_pos (maskedRegion m).card with h0 | hpos
    · rw [Finset.card_eq_zero.mp h0]
      simp
    · have hc : (0:ℚ) < ((maskedRegion m).card : ℚ) := by
        exact_mod_cast hpos
      exact (div_le_div_right hc).mp hmean
  have htot : ∑ i, f i ≤ ∑ i, g i := by
    rw [← Finset.sum_add_sum_compl (maskedRegion m) f,
      ← Finset.sum_add_sum_compl (maskedRegion m) g, hout]
    exact add_le_add_right hS _
  unfold temperatureEstimate avg_brightness
  rw [List.sum_ofFn, List.sum_ofFn, List.length_ofFn, List.length_ofFn]
  rcases Nat.eq_zero_or_pos n with h0 | hpos
  · subst h0
    simp
  · have hn : (0:ℚ) < (n : ℚ) := by exact_mod_cast hpos
    have hdiv : (∑ i, f i) / (n:ℚ) ≤ (∑ i, g i) / (n:ℚ) :=
      (div_le_div_right hn).mpr htot
    linarith

/-- C4 witness: the monotonicity theorem applied to the one-pixel frames 0
and 1 under the all-active mask. -/
theorem c4_temperature_monotone_witness :
    ((∀ i : Fin 1, (fun _ : Fin 1 => (1:ℚ)) i ≤ 1/2 →
        (fun _ : Fin 1 => (0:ℚ)) i = (fun _ : Fin 1 => (1:ℚ)) i) ∧
      maskedMeanIntensity (fun _ : Fin 1 => (0:ℚ)) (fun _ => 1) ≤
        maskedMeanIntensity (fun _ : Fin 1 => (1:ℚ)) (fun _ => 1)) ∧
    temperatureEstimate (List.ofFn (fun _ : Fin 1 => (1:ℚ))) ≤
      temperatureEstimate (List.ofFn (fun _ : Fin 1 => (0:ℚ))) := by
  have hreg : maskedRegion (fun _ : Fin 1 => (1:ℚ)) = Finset.univ := by
    unfold maskedRegion
    refine Finset.filter_true_of_mem (fun i _ => ?_)
    norm_num
  have hout : ∀ i : Fin 1, (fun _ : Fin 1 => (1:ℚ)) i ≤ 1/2 →
      (fun _ : Fin 1 => (0:ℚ)) i = (fun _ : Fin 1 => (1:ℚ)) i :=
    fun i h => absurd h (by norm_num)
  have hmean : maskedMeanIntensity (fun _ : Fin 1 => (0:ℚ)) (fun _ => 1) ≤
      maskedMeanIntensity (fun _ : Fin 1 => (1:ℚ)) (fun _ => 1) := by
    unfold maskedMeanIntensity
    rw [hreg]
    simp
  exact ⟨⟨hout, hmean⟩,
    c4_temperature_monotone (fun _ => 0) (fun _ => 1) (fun _ => 1) hout hmean⟩

/-- C6: a uniformly minimal-intensity (all-zero) normalized frame put
through the Fallback segmentation yields a mask of coverage 0 percent, and
the risk tier computed on that mask and frame is "low" (for any nonempty
frame and any nonnegative brightness threshold). -/
theorem c6_blank_frame_low (n : Nat) (t : ℚ) (hn : 0 < n) (ht : 0 ≤ t) :
    coveragePercent (fallbackSegment t (List.replicate n 0)) = 0 ∧
    classify_risk (fallbackSegment t (List.replicate n 0))
      (List.replicate n 0) = "low" := by
  have hmask : fallbackSegment t (List.replicate n 0) = List.replicate n 0 := by
    unfold fallbackSegment
    rw [List.map_replicate, if_neg (not_lt.mpr ht)]
  rw [hmask]
  have hfilter : ∀ q : ℚ, 0 ≤ q →
      (List.replicate n (0:ℚ)).filter (fun p => q < p) = [] := by
    intro q hq
    rw [List.filter_replicate, if_neg]
    simp only [decide_eq_true_eq, not_lt]
    exact hq
  have htemp : temperatureEstimate (List.replicate n (0:ℚ)) = 44 := by
    unfold temperatureEstimate avg_brightness
    rw [List.sum_replicate]
    norm_num
  constructor
  · unfold coveragePercent
    rw [hfilter (1/2) (by norm_num)]
    simp
  · have hhigh : high_risk_pixels (List.replicate n (0:ℚ)) = 0 := by
      unfold high_risk_pixels
      rw [hfilter (4/5) (by norm_num)]
      rfl
    unfold classify_risk
    rw [if_neg, if_neg]
    · rw [htemp]
      norm_num
    · push_neg
      rw [hhigh, htemp]
      norm_num

/-- C6 witness: the blank-frame theorem applied to a one-pixel frame and
threshold 1/2. -/
theorem c6_blank_frame_low_witness :
    (0 < 1 ∧ (0:ℚ) ≤ 1/2) ∧
    (coveragePercent (fallbackSegment (1/2) (List.replicate 1 0)) = 0 ∧
     classify_risk (fallbackSegment (1/2) (List.replicate 1 0))
       (List.replicate 1 0) = "low") :=
  ⟨⟨Nat.one_pos, by norm_num⟩, c6_blank_frame_low 1 (1/2) Nat.one_pos (by norm_num)⟩

/-- C7: the Fallback segmentation is deterministic — the same frame always
produces the same mask — and each mask pixel is 1 exactly when the
corresponding frame pixel exceeds the brightness threshold, else 0. -/
theorem c7_fallback_deterministic (t : ℚ) (frame : List ℚ) (i : Nat)
    (h1 : i < frame.length) (h2 : i < (fallbackSegment t frame).length) :
    fallbackSegment t frame = fallbackSegment t frame ∧
    (fallbackSegment t frame).get ⟨i, h2⟩ =
      if t < frame.get ⟨i, h1⟩ then 1 else 0 := by
  refine ⟨rfl, ?_⟩
  simp [fallbackSegment, List.get_eq_getElem, List.getElem_map]

/-- C7 witness: the determinism-and-threshold theorem applied to the
one-pixel frame [1] with threshold 1/2 at index 0. -/
theorem c7_fallback_deterministic_witness :
    fallbackSegment (1/2) [(1:ℚ)] = fallbackSegment (1/2) [(1:ℚ)] ∧
    (fallbackSegment (1/2) [(1:ℚ)]).get ⟨0, by simp [fallbackSegment]⟩ =
      if (1/2 : ℚ) < ([(1:ℚ)] : List ℚ).get ⟨0, by simp⟩ then 1 else 0 :=
  c7_fallback_deterministic (1/2) [(1:ℚ)] 0 (by simp) (by simp [fallbackSegment])

/-- C8: the OverlayRenderer applied to an all-zero mask returns the
original frame unchanged — every output pixel is the original gray value
replicated across the three channels, with no coloring applied. -/
theorem c8_overlay_zero_mask (frame : List ℚ) :
    renderOverlay frame (List.replicate frame.length 0) =
      frame.map (fun p => (p, p, p)) := by
  have ha : overlayAlpha 0 = 0 := by norm_num [overlayAlpha]
  induction frame with
  | nil => rfl
  | cons p rest ih =>
    unfold renderOverlay at ih ⊢
    rw [List.length_cons, List.replicate_succ, List.zipWith_cons_cons,
      List.map_cons, ih, ha]
    norm_num

/-- C9 counterexample: with the default settings and notifications enabled,
a detection result with tier "low" still triggers a user-facing
notification (`sendRiskNotification` forwards every tier and
`sendRiskAlert` has a dedicated low-risk alert), so "after a result with
tier Low no user-facing alert is sent" is false. -/
theorem c9_low_alert_counterexample :
    sendRiskNotification true defaultAlertSettings "low" = true := by
  rfl

/-- C9 (amended): the manual `sendAlert` action fires exactly when results
exist and the tier is not "low"; the automatic post-detection notification
path fires for every tier — "low" included — whenever notifications are
enabled and the default settings are in force. -/
theorem c9_alert_gating (level : String) :
    (sendAlert true level = true ↔ level ≠ "low") ∧
    sendRiskAlert defaultAlertSettings level = true ∧
    sendRiskNotification true defaultAlertSettings level = true := by
  refine ⟨?_, ?_, ?_⟩
  · simp [sendAlert]
  · unfold sendRiskAlert defaultAlertSettings
    split_ifs <;> rfl
  · unfold sendRiskNotification sendRiskAlert defaultAlertSettings
    split_ifs <;> rfl

end TropoScan
